import Mathlib

/-!
Shallow embedding of `src/context/mmcontext.c` (the process memory
snapshot-and-restore facility).  Addresses and page contents are modelled
as `Nat` (one `Nat` stands for the whole 4096-byte content of a page,
since the code only ever copies whole pages).  Page-table entries carry
the two bits the code reads or writes (`present`, `writable`); the four
upper page-table levels are modelled as presence predicates, which is all
`check_page_pte` inspects of them.  Error returns are the C `int` codes
(`0` success, `-22` = `-EINVAL`).
-/

/-- One page-table entry: the presence bit tested by `pte_present` and the
writable bit cleared by `pte_wrprotect`. -/
structure PTEntry where
  present : Bool
  writable : Bool
deriving DecidableEq

/-- The page tables of the current process: presence of the four upper
levels (`pgd`, `p4d`, `pud`, `pmd`) at each address, and the leaf `pte`
for each address. -/
structure PageTables where
  pgd_present : Nat → Bool
  p4d_present : Nat → Bool
  pud_present : Nat → Bool
  pmd_present : Nat → Bool
  pte : Nat → PTEntry

/-- `struct vm_area_struct`, restricted to the fields the code reads:
`vm_start`, `vm_end`, the `VM_STACK` bit of `vm_flags`, and whether
`vm_file` is non-NULL. -/
structure vm_area_struct where
  vm_start : Nat
  vm_end : Nat
  vm_flags_stack : Bool
  vm_file : Bool
deriving DecidableEq

/-- `struct process_context`: a saved page.  `new_page` holds the content
copied from the user page at `address` (we model the content of the
kernel page directly, rather than the page frame pointer). -/
structure process_context where
  address : Nat
  new_page : Nat
deriving DecidableEq

/-- The per-task state the code touches: `current->contextsave`,
`current->context_queue`, the page tables of `current->mm`, and the
contents of user memory (per page-aligned address). -/
structure TaskState where
  contextsave : Bool
  context_queue : List process_context
  pt : PageTables
  mem : Nat → Nat

/-- `check_anon`: a vma is eligible iff it is neither stack memory
(`VM_STACK & vma->vm_flags`) nor file memory (`vma->vm_file`). -/
def check_anon (vma : vm_area_struct) : Bool :=
  if vma.vm_flags_stack then false
  else if vma.vm_file then false
  else true

/-- `check_page_pte`: walk `pgd`/`p4d`/`pud`/`pmd` and return the pte if
every level is present and the pte itself is present; `none` (NULL)
otherwise. -/
def check_page_pte (pt : PageTables) (address : Nat) : Option PTEntry :=
  if !pt.pgd_present address then none
  else if !pt.p4d_present address then none
  else if !pt.pud_present address then none
  else if !pt.pmd_present address then none
  else if !(pt.pte address).present then none
  else some (pt.pte address)

/-- `pte_wrprotect`: clear the writable bit. -/
def pte_wrprotect (e : PTEntry) : PTEntry :=
  { e with writable := false }

/-- `pte_mkwrite`: set the writable bit (used by the fault path to let the
faulting write proceed). -/
def pte_mkwrite (e : PTEntry) : PTEntry :=
  { e with writable := true }

/-- `set_pte_at`: store a new pte for `address`. -/
def set_pte_at (pt : PageTables) (address : Nat) (e : PTEntry) : PageTables :=
  { pt with pte := fun a => if a = address then e else pt.pte a }

/-- The loop of `set_protect`: `for (i = vm_start; i <= vm_end; i += 4096)`.
The extra `Nat` argument counts the remaining loop iterations; `set_protect`
passes `vm_end / 4096 + 1`, which is at least the number of iterations of
the C loop, so the count never runs out before the loop condition fails
(lemmas below are proved under that sufficiency condition). -/
def set_protect_go : PageTables → Nat → Nat → Nat → PageTables × Int
  | pt, _, _, 0 => (pt, 0)
  | pt, i, e, n + 1 =>
    if i ≤ e then
      match check_page_pte pt i with
      | some p => set_protect_go (set_pte_at pt i (pte_wrprotect p)) (i + 4096) e n
      | none => (pt, -22)
    else (pt, 0)

/-- `set_protect`: sweep `i` from `vma->vm_start` up to and including
`vma->vm_end` in steps of 4096; write-protect each address whose pte
resolves, and return `-EINVAL` as soon as one does not resolve (leaving
the protection applied so far in place). -/
def set_protect (pt : PageTables) (vma : vm_area_struct) : PageTables × Int :=
  set_protect_go pt vma.vm_start vma.vm_end (vma.vm_end / 4096 + 1)

/-- The loop of `save_context`: `while (mmap->vm_next) { if (check_anon(mmap))
set_protect(mmap); mmap = mmap->vm_next; }`.  Note the loop tests
`vm_next` before processing, so the last vma of the list is never
processed, and the `int` returned by `set_protect` is discarded. -/
def save_context_go (pt : PageTables) : List vm_area_struct → PageTables
  | [] => pt
  | [_] => pt
  | vma :: rest =>
    save_context_go (if check_anon vma then (set_protect pt vma).1 else pt) rest

/-- `save_context`: initialize the (empty) context queue, set
`contextsave`, and run the protection loop over the vma list of
`current->mm`.  Declared `void` in the source: no error is reported. -/
def save_context (mmap : List vm_area_struct) (s : TaskState) : TaskState :=
  { s with
    context_queue := []
    contextsave := true
    pt := save_context_go s.pt mmap }

/-- `copy_pages`: allocate a kernel page, copy the current content of the
user page at `addr` into it (`__copy_from_user`), and append the new
`process_context` entry at the tail of the queue.  `cff addr` models
`__copy_from_user` returning a non-zero residue for that page, in which
case the function returns `-EINVAL` without appending. -/
def copy_pages (cff : Nat → Bool) (s : TaskState) (addr : Nat) :
    TaskState × Int :=
  if cff addr then (s, -22)
  else
    ({ s with context_queue := s.context_queue ++ [⟨addr, s.mem addr⟩] }, 0)

/-- Point update of user memory (one page written). -/
def updateMem (m : Nat → Nat) (a v : Nat) : Nat → Nat :=
  fun x => if x = a then v else m x

/-- The loop of `restore_context`: while the queue is non-empty, detach
the head entry (`list_del` happens before the copy), `__copy_to_user` the
saved content back to its address, and free the kernel page and the entry
only when the copy succeeded; a failed copy (`cf e.address`) returns
`-EINVAL` at once, with the detached entry neither restored nor freed.
The `freed` component records which entries had their kernel page freed
(`__free_pages` + `kfree`). -/
def restore_context_go (cf : Nat → Bool) :
    (Nat → Nat) → List process_context → List process_context →
      (Nat → Nat) × List process_context × List process_context × Int
  | mem, freed, [] => (mem, [], freed, 0)
  | mem, freed, e :: rest =>
    if cf e.address then (mem, rest, freed, -22)
    else restore_context_go cf (updateMem mem e.address e.new_page) (freed ++ [e]) rest

/-- `restore_context`: clear `contextsave`, then drain the queue in
insertion order writing each saved page back.  Returns the updated task
state, the list of entries whose kernel pages were freed, and the `int`
result. -/
def restore_context (cf : Nat → Bool) (s : TaskState) :
    TaskState × List process_context × Int :=
  ({ s with
     contextsave := false
     mem := (restore_context_go cf s.mem [] s.context_queue).1
     context_queue := (restore_context_go cf s.mem [] s.context_queue).2.1 },
   (restore_context_go cf s.mem [] s.context_queue).2.2.1,
   (restore_context_go cf s.mem [] s.context_queue).2.2.2)

/-- `sys_mmcontext(i)`: `i = 0` begins a snapshot unless one is active;
`i = 1` restores unless none is active; anything else is `-EINVAL`.
Note the source invokes `restore_context()` as a bare statement and then
`return 0;` — the `int` returned by `restore_context` is discarded. -/
def sys_mmcontext (mmap : List vm_area_struct) (cf : Nat → Bool)
    (s : TaskState) (i : Int) : TaskState × Int :=
  if i = 0 then
    if s.contextsave then (s, -22)
    else (save_context mmap s, 0)
  else if i = 1 then
    if !s.contextsave then (s, -22)
    else ((restore_context cf s).1, 0)
  else (s, -22)

/-- Modelled from the spec: the fault-dispatch glue that invokes this
system's capture on a write-protection fault is not part of
`src/context/mmcontext.c` (nothing in the file calls `copy_pages`; the
call site in `save_context` is commented out).  Per spec section 4.4, on a
write fault at `addr` the handler (1) captures the current pre-write page
content via the capture routine (`copy_pages`), (2) clears the read-only
bit on that single page, and (3) lets the faulting write (of `v`)
complete.  A capture failure forcibly discards the snapshot and
transitions to inactive (spec section 7, `CaptureFailed`), the write not
being performed. -/
def on_write_fault (cff : Nat → Bool) (s : TaskState) (addr v : Nat) :
    TaskState :=
  match copy_pages cff s addr with
  | (s1, r) =>
    if r = 0 then
      { s1 with
        pt := set_pte_at s1.pt addr (pte_mkwrite (s1.pt.pte addr))
        mem := updateMem s1.mem addr v }
    else
      { s1 with contextsave := false, context_queue := [] }

/-- Page tables with every level present and every page present and
writable (used as a concrete starting state). -/
def pt_all : PageTables :=
  ⟨fun _ => true, fun _ => true, fun _ => true, fun _ => true,
   fun _ => ⟨true, true⟩⟩

/-- The always-succeeding copy predicate (no `__copy_to_user` /
`__copy_from_user` failure). -/
def cf_ok : Nat → Bool := fun _ => false

/-- Concrete eligible (anonymous) region: two pages `[4096, 12288)` would
be `start = 4096, end = 12288`; the source stores `vm_end` one past the
last byte, so this region is `[4096, 8192)` with `vm_end = 8192`. -/
def vmaA : vm_area_struct := ⟨4096, 8192, false, false⟩

/-- Concrete file-backed region immediately following `vmaA`. -/
def vmaB : vm_area_struct := ⟨8192, 12288, false, true⟩

/-- Page tables where every level is present and every page is present
and writable, except that the pte at address 8192 is not present. -/
def ptMiss : PageTables :=
  ⟨fun _ => true, fun _ => true, fun _ => true, fun _ => true,
   fun a => if a = 8192 then ⟨false, true⟩ else ⟨true, true⟩⟩

/-- Idle task state over `pt_all` (no snapshot active, empty queue). -/
def sAll : TaskState := ⟨false, [], pt_all, fun _ => 0⟩

/-- Idle task state over `ptMiss`. -/
def sMiss : TaskState := ⟨false, [], ptMiss, fun _ => 0⟩

/-- Task state with an active snapshot, empty queue, memory all 7. -/
def sFault : TaskState := ⟨true, [], pt_all, fun _ => 7⟩

/-- Task state with an active snapshot and two queued saved pages. -/
def sQ : TaskState := ⟨true, [⟨4096, 7⟩, ⟨8192, 8⟩], pt_all, fun _ => 0⟩

/-- Copy-back predicate that fails exactly on address 4096. -/
def cfFail4096 : Nat → Bool := fun a => a == 4096

theorem check_page_pte_isSome (pt : PageTables) (a : Nat) :
    (check_page_pte pt a).isSome =
      (pt.pgd_present a && pt.p4d_present a && pt.pud_present a &&
        pt.pmd_present a && (pt.pte a).present) := by
  unfold check_page_pte
  by_cases h1 : pt.pgd_present a <;> by_cases h2 : pt.p4d_present a <;>
    by_cases h3 : pt.pud_present a <;> by_cases h4 : pt.pmd_present a <;>
    by_cases h5 : (pt.pte a).present <;> simp [h1, h2, h3, h4, h5]

theorem check_page_pte_eq_some {pt : PageTables} {a : Nat} {p : PTEntry}
    (h : check_page_pte pt a = some p) : p = pt.pte a ∧ p.present = true := by
  unfold check_page_pte at h
  split_ifs at h with h1 h2 h3 h4 h5
  all_goals simp_all

theorem check_page_pte_update (pt : PageTables) (i : Nat) (e : PTEntry)
    (he : e.present = (pt.pte i).present) (a : Nat) :
    (check_page_pte (set_pte_at pt i e) a).isSome = (check_page_pte pt a).isSome := by
  rw [check_page_pte_isSome, check_page_pte_isSome]
  unfold set_pte_at
  by_cases hai : a = i
  · subst hai; simp [he]
  · simp [hai]

theorem set_protect_go_succ_some {pt : PageTables} {i e n : Nat} {p : PTEntry}
    (hie : i ≤ e) (hc : check_page_pte pt i = some p) :
    set_protect_go pt i e (n + 1)
      = set_protect_go (set_pte_at pt i (pte_wrprotect p)) (i + 4096) e n := by
  simp only [set_protect_go, if_pos hie, hc]

theorem set_protect_go_succ_none {pt : PageTables} {i e n : Nat}
    (hie : i ≤ e) (hc : check_page_pte pt i = none) :
    set_protect_go pt i e (n + 1) = (pt, -22) := by
  simp only [set_protect_go, if_pos hie, hc]

theorem set_protect_go_succ_stop {pt : PageTables} {i e n : Nat}
    (hie : ¬ i ≤ e) :
    set_protect_go pt i e (n + 1) = (pt, 0) := by
  simp only [set_protect_go, if_neg hie]

theorem set_protect_go_frame :
    ∀ (n : Nat) (pt : PageTables) (i e a : Nat),
      (set_protect_go pt i e n).1.pte a ≠ pt.pte a →
      (pt.pte a).present = true ∧
        (set_protect_go pt i e n).1.pte a = pte_wrprotect (pt.pte a) := by
  intro n
  induction n with
  | zero => intro pt i e a h; simp [set_protect_go] at h
  | succ n ih =>
    intro pt i e a h
    by_cases hie : i ≤ e
    · cases hc : check_page_pte pt i with
      | none => rw [set_protect_go_succ_none hie hc] at h; simp at h
      | some p =>
        rw [set_protect_go_succ_some hie hc] at h ⊢
        obtain ⟨hpe, hpr⟩ := check_page_pte_eq_some hc
        by_cases hfix :
            (set_protect_go (set_pte_at pt i (pte_wrprotect p)) (i + 4096) e n).1.pte a
              = (set_pte_at pt i (pte_wrprotect p)).pte a
        · rw [hfix] at h ⊢
          by_cases hai : a = i
          · subst hai
            refine ⟨by rw [← hpe]; exact hpr, ?_⟩
            simp [set_pte_at, hpe]
          · exfalso; apply h; simp [set_pte_at, hai]
        · obtain ⟨h1, h2⟩ := ih (set_pte_at pt i (pte_wrprotect p)) (i + 4096) e a hfix
          by_cases hai : a = i
          · subst hai
            refine ⟨by rw [← hpe]; exact hpr, ?_⟩
            rw [h2]
            simp [set_pte_at, pte_wrprotect, hpe]
          · have heq : (set_pte_at pt i (pte_wrprotect p)).pte a = pt.pte a := by
              simp [set_pte_at, hai]
            rw [heq] at h1 h2
            exact ⟨h1, h2⟩
    · rw [set_protect_go_succ_stop hie] at h; simp at h

theorem set_protect_go_ok :
    ∀ (n : Nat) (pt : PageTables) (i e : Nat),
      e < i + 4096 * n → (set_protect_go pt i e n).2 = 0 →
      ∀ k, i + 4096 * k ≤ e →
        (check_page_pte pt (i + 4096 * k)).isSome = true ∧
        ((set_protect_go pt i e n).1.pte (i + 4096 * k)).writable = false := by
  intro n
  induction n with
  | zero => intro pt i e hfuel hr k hk; omega
  | succ n ih =>
    intro pt i e hfuel hr k hk
    by_cases hie : i ≤ e
    · cases hc : check_page_pte pt i with
      | none => rw [set_protect_go_succ_none hie hc] at hr; simp at hr
      | some p =>
        rw [set_protect_go_succ_some hie hc] at hr ⊢
        obtain ⟨hpe, hpr⟩ := check_page_pte_eq_some hc
        have hpres : (pte_wrprotect p).present = (pt.pte i).present := by
          simp [pte_wrprotect, hpe]
        cases k with
        | zero =>
          constructor
          · simp [hc]
          · by_cases hfix :
                (set_protect_go (set_pte_at pt i (pte_wrprotect p)) (i + 4096) e n).1.pte (i + 4096 * 0)
                  = (set_pte_at pt i (pte_wrprotect p)).pte (i + 4096 * 0)
            · rw [hfix]; simp [set_pte_at, pte_wrprotect]
            · obtain ⟨-, h2⟩ := set_protect_go_frame n _ _ _ _ hfix
              rw [h2]; simp [pte_wrprotect]
        | succ k' =>
          have haddr : i + 4096 * (k' + 1) = (i + 4096) + 4096 * k' := by ring
          have hk' : (i + 4096) + 4096 * k' ≤ e := by omega
          obtain ⟨h1, h2⟩ := ih (set_pte_at pt i (pte_wrprotect p)) (i + 4096) e
            (by omega) hr k' hk'
          rw [haddr]
          refine ⟨?_, h2⟩
          rw [← check_page_pte_update pt i (pte_wrprotect p) hpres]
          exact h1
    · exfalso; omega

theorem set_protect_go_fail :
    ∀ (n : Nat) (pt : PageTables) (i e : Nat),
      e < i + 4096 * n →
      (∃ k, i + 4096 * k ≤ e ∧ check_page_pte pt (i + 4096 * k) = none) →
      (set_protect_go pt i e n).2 = -22 := by
  intro n
  induction n with
  | zero => intro pt i e hfuel ⟨k, hk, _⟩; omega
  | succ n ih =>
    intro pt i e hfuel ⟨k, hk, hnone⟩
    by_cases hie : i ≤ e
    · cases hc : check_page_pte pt i with
      | none => rw [set_protect_go_succ_none hie hc]
      | some p =>
        rw [set_protect_go_succ_some hie hc]
        obtain ⟨hpe, hpr⟩ := check_page_pte_eq_some hc
        have hpres : (pte_wrprotect p).present = (pt.pte i).present := by
          simp [pte_wrprotect, hpe]
        cases k with
        | zero => simp at hk hnone; simp [hnone] at hc
        | succ k' =>
          apply ih (set_pte_at pt i (pte_wrprotect p)) (i + 4096) e (by omega)
          refine ⟨k', by omega, ?_⟩
          have haddr : (i + 4096) + 4096 * k' = i + 4096 * (k' + 1) := by ring
          rw [haddr]
          have hiso := check_page_pte_update pt i (pte_wrprotect p) hpres (i + 4096 * (k' + 1))
          rw [hnone] at hiso
          simp only [Option.isSome_none] at hiso
          cases hcc : check_page_pte (set_pte_at pt i (pte_wrprotect p)) (i + 4096 * (k' + 1)) with
          | none => rfl
          | some q => rw [hcc] at hiso; simp at hiso
    · exfalso; omega

theorem restore_context_go_ok (cf : Nat → Bool) :
    ∀ (q : List process_context) (mem : Nat → Nat) (freed : List process_context),
      (∀ e ∈ q, cf e.address = false) →
      restore_context_go cf mem freed q =
        (q.foldl (fun m e => updateMem m e.address e.new_page) mem, [], freed ++ q, 0) := by
  intro q
  induction q with
  | nil => intro mem freed _; simp [restore_context_go]
  | cons e rest ih =>
    intro mem freed h
    have he : cf e.address = false := h e (by simp)
    have hrest : ∀ x ∈ rest, cf x.address = false := fun x hx => h x (by simp [hx])
    simp only [restore_context_go, he, Bool.false_eq_true, if_false,
      ih (updateMem mem e.address e.new_page) (freed ++ [e]) hrest, List.foldl_cons]
    simp

theorem restore_context_go_fail (cf : Nat → Bool) :
    ∀ (q1 : List process_context) (en : process_context) (q2 : List process_context)
      (mem : Nat → Nat) (freed : List process_context),
      (∀ x ∈ q1, cf x.address = false) → cf en.address = true →
      restore_context_go cf mem freed (q1 ++ en :: q2) =
        (q1.foldl (fun m x => updateMem m x.address x.new_page) mem, q2, freed ++ q1, -22) := by
  intro q1
  induction q1 with
  | nil =>
    intro en q2 mem freed _ hen
    simp [restore_context_go, hen]
  | cons e rest ih =>
    intro en q2 mem freed h1 hen
    have he : cf e.address = false := h1 e (by simp)
    have hrest : ∀ x ∈ rest, cf x.address = false := fun x hx => h1 x (by simp [hx])
    simp only [List.cons_append, restore_context_go, he, Bool.false_eq_true, if_false,
      List.foldl_cons, List.append_eq]
    rw [ih en q2 (updateMem mem e.address e.new_page) (freed ++ [e]) hrest hen]
    simp

/-- C8: during the protection sweep over a region, (i) whenever the sweep
succeeds, every visited page (stride 4096 from `vm_start` while `≤ vm_end`)
was resolvable-and-present and its pte ends up with the writable bit
cleared; (ii) a visited address whose page cannot be resolved (a missing
page-table level or absent pte) makes `set_protect` fail with `-EINVAL`
(the code's `RegionUnmapped`); (iii) the only ptes mutated are ptes that
were present, and the mutation is exactly clearing the writable bit — a
not-present page is never protected. -/
theorem c8_sweep_protects_present_pages (pt : PageTables) (vma : vm_area_struct) :
    ((set_protect pt vma).2 = 0 →
      ∀ k, vma.vm_start + 4096 * k ≤ vma.vm_end →
        (check_page_pte pt (vma.vm_start + 4096 * k)).isSome = true ∧
        ((set_protect pt vma).1.pte (vma.vm_start + 4096 * k)).writable = false) ∧
    ((∃ k, vma.vm_start + 4096 * k ≤ vma.vm_end ∧
        check_page_pte pt (vma.vm_start + 4096 * k) = none) →
      (set_protect pt vma).2 = -22) ∧
    (∀ a, (set_protect pt vma).1.pte a ≠ pt.pte a →
      (pt.pte a).present = true ∧
        (set_protect pt vma).1.pte a = pte_wrprotect (pt.pte a)) := by
  have hfuel : vma.vm_end < vma.vm_start + 4096 * (vma.vm_end / 4096 + 1) := by
    omega
  refine ⟨?_, ?_, ?_⟩
  · exact fun hr k hk =>
      set_protect_go_ok (vma.vm_end / 4096 + 1) pt vma.vm_start vma.vm_end hfuel hr k hk
  · exact fun hx =>
      set_protect_go_fail (vma.vm_end / 4096 + 1) pt vma.vm_start vma.vm_end hfuel hx
  · exact fun a ha =>
      set_protect_go_frame (vma.vm_end / 4096 + 1) pt vma.vm_start vma.vm_end a ha

/-- Witness for C8: on all-present page tables the sweep of `[4096, 8192]`
succeeds and leaves page 4096 read-only; on page tables whose pte at 8192
is absent, the same sweep fails with `-EINVAL`. -/
theorem c8_witness :
    (check_page_pte pt_all 4096).isSome = true ∧
    ((set_protect pt_all vmaA).1.pte 4096).writable = false ∧
    (set_protect ptMiss vmaA).2 = -22 :=
  ⟨((c8_sweep_protects_present_pages pt_all vmaA).1 (by decide) 0 (by decide)).1,
   ((c8_sweep_protects_present_pages pt_all vmaA).1 (by decide) 0 (by decide)).2,
   (c8_sweep_protects_present_pages ptMiss vmaA).2.1 ⟨1, by decide, by decide⟩⟩

/-- C4 (code bug): the sweep's loop condition is `i <= vma->vm_end`, so on
the region `[4096, 8192)` (vm_start 4096, vm_end 8192, all pages present)
`set_protect` also write-protects the page at address 8192 — an address
equal to `region.end`, outside the half-open interval `[start, end)` that
the claim allows. -/
theorem c4_sweep_touches_region_end :
    ((set_protect pt_all vmaA).1.pte vmaA.vm_end).writable = false ∧
    (pt_all.pte vmaA.vm_end).writable = true := by
  decide

/-- C2 (code bug): with regions `[vmaA (eligible), vmaB]` and the pte at
8192 absent, `set_protect` on `vmaA` fails with `-EINVAL` after having
protected page 4096, yet `save_context` discards that return value:
`sys_mmcontext(0)` still returns 0 (success), the controller stays active,
and the partially applied protection (page 4096 read-only) is not rolled
back. -/
theorem c2_partial_sweep_reported_success :
    (set_protect ptMiss vmaA).2 = -22 ∧
    (sys_mmcontext [vmaA, vmaB] cf_ok sMiss 0).2 = 0 ∧
    (sys_mmcontext [vmaA, vmaB] cf_ok sMiss 0).1.contextsave = true ∧
    ((sys_mmcontext [vmaA, vmaB] cf_ok sMiss 0).1.pt.pte 4096).writable = false := by
  decide

/-- C3 (code bug): `save_context`'s loop is `while (mmap->vm_next)`, so the
last region of the enumeration is never processed.  With a single eligible
region `vmaA` (all pages present), `BeginSnapshot` reports success,
activates the snapshot and initializes an empty queue, but protects no
page of the eligible region at all. -/
theorem c3_last_region_never_swept :
    check_anon vmaA = true ∧
    (sys_mmcontext [vmaA] cf_ok sAll 0).2 = 0 ∧
    (sys_mmcontext [vmaA] cf_ok sAll 0).1.contextsave = true ∧
    (sys_mmcontext [vmaA] cf_ok sAll 0).1.context_queue = [] ∧
    ((sys_mmcontext [vmaA] cf_ok sAll 0).1.pt.pte 4096).writable = true ∧
    ((sys_mmcontext [vmaA] cf_ok sAll 0).1.pt.pte 8192).writable = true := by
  decide

/-- C9 (code bug): with the eligible region `vmaA = [4096, 8192)` directly
followed by the file-backed region `vmaB = [8192, 12288)` (all pages
present), `BeginSnapshot` write-protects address 8192 — the first page
of the file-backed region — because the sweep of `vmaA` runs through
`i <= vm_end`.  A page inside a file-backed region is therefore
write-protected by the system. -/
theorem c9_file_backed_page_protected :
    vmaB.vm_file = true ∧
    vmaB.vm_start ≤ 8192 ∧ 8192 < vmaB.vm_end ∧
    (pt_all.pte 8192).writable = true ∧
    ((sys_mmcontext [vmaA, vmaB] cf_ok sAll 0).1.pt.pte 8192).writable = false := by
  decide

/-- C7: `sys_mmcontext(0)` with a snapshot already active returns
`-EINVAL` (the code's `AlreadyActive`) with the task state — active flag,
queue, page tables, memory — completely unchanged; `sys_mmcontext(1)` with
no active snapshot likewise returns `-EINVAL` (`NoActiveSnapshot`) with no
state change. -/
theorem c7_state_machine_guards (mmap : List vm_area_struct) (cf : Nat → Bool)
    (s : TaskState) :
    (s.contextsave = true → sys_mmcontext mmap cf s 0 = (s, -22)) ∧
    (s.contextsave = false → sys_mmcontext mmap cf s 1 = (s, -22)) := by
  constructor <;> intro h <;> simp [sys_mmcontext, h]

/-- Witness for C7 at concrete states: active state rejected by begin,
idle state rejected by end. -/
theorem c7_witness :
    sys_mmcontext [] cf_ok sFault 0 = (sFault, -22) ∧
    sys_mmcontext [] cf_ok sAll 1 = (sAll, -22) :=
  ⟨(c7_state_machine_guards [] cf_ok sFault).1 rfl,
   (c7_state_machine_guards [] cf_ok sAll).2 rfl⟩

/-- C10: invoking the entry point with any argument other than 0 or 1
returns `-EINVAL` and leaves the task state untouched, whatever the prior
state. -/
theorem c10_invalid_argument (mmap : List vm_area_struct) (cf : Nat → Bool)
    (s : TaskState) (i : Int) (h0 : i ≠ 0) (h1 : i ≠ 1) :
    sys_mmcontext mmap cf s i = (s, -22) := by
  simp [sys_mmcontext, h0, h1]

/-- Witness for C10 at `i = 5`. -/
theorem c10_witness :
    sys_mmcontext [] cf_ok sQ 5 = (sQ, -22) :=
  c10_invalid_argument [] cf_ok sQ 5 (by decide) (by decide)

/-- C1: round-trip restore.  If a snapshot is active, the page at `P`
holds its original content `C`, and a write of `C2` to `P` goes through
the write-fault capture path (capture succeeds, `cff P = false`), then
`sys_mmcontext(1)` with a succeeding write-back (`cf` never fails) leaves
`P` containing `C` again and returns 0. -/
theorem c1_round_trip_restore (mmap : List vm_area_struct) (cf cff : Nat → Bool)
    (s : TaskState) (P C C2 : Nat)
    (hact : s.contextsave = true) (hC : s.mem P = C) (hcff : cff P = false)
    (hcf : ∀ a, cf a = false) :
    (sys_mmcontext mmap cf (on_write_fault cff s P C2) 1).1.mem P = C ∧
    (sys_mmcontext mmap cf (on_write_fault cff s P C2) 1).2 = 0 := by
  have h1 : on_write_fault cff s P C2 =
      { s with
        context_queue := s.context_queue ++ [(⟨P, s.mem P⟩ : process_context)]
        pt := set_pte_at s.pt P (pte_mkwrite (s.pt.pte P))
        mem := updateMem s.mem P C2 } := by
    unfold on_write_fault copy_pages
    simp [hcff]
  rw [h1]
  unfold sys_mmcontext
  norm_num
  rw [hact]
  unfold restore_context
  rw [restore_context_go_ok cf _ _ _ (fun e _ => hcf e.address)]
  simp only [List.foldl_append, List.foldl_cons, List.foldl_nil]
  simp [updateMem, hC]

/-- Witness for C1: content 7 at page 4096 is restored after being
overwritten with 9 during an active snapshot. -/
theorem c1_witness :
    (sys_mmcontext [] cf_ok (on_write_fault cf_ok sFault 4096 9) 1).1.mem 4096 = 7 ∧
    (sys_mmcontext [] cf_ok (on_write_fault cf_ok sFault 4096 9) 1).2 = 0 :=
  c1_round_trip_restore [] cf_ok cf_ok sFault 4096 7 9 rfl rfl rfl (fun _ => rfl)

/-- Counterexample for C5: two write-fault captures of the same address
4096 in one snapshot generation leave TWO `process_context` entries whose
original address is 4096 in the vault — not at most one. -/
theorem c5_counterexample :
    (on_write_fault cf_ok (on_write_fault cf_ok sFault 4096 9) 4096 11).context_queue
      = [⟨4096, 7⟩, ⟨4096, 9⟩] := by
  decide

/-- C5 amended: `copy_pages` performs no duplicate check, so each capture
unconditionally appends an entry at the queue's tail: a second capture of
an already-captured address appends a second entry for that address (with
the page's then-current content) and still succeeds — the faulting write
completes. -/
theorem c5_capture_always_appends (cff : Nat → Bool) (s : TaskState)
    (A v w : Nat) (h : cff A = false) :
    (on_write_fault cff (on_write_fault cff s A v) A w).context_queue
      = s.context_queue ++ [⟨A, s.mem A⟩, ⟨A, v⟩] ∧
    (on_write_fault cff (on_write_fault cff s A v) A w).mem A = w := by
  unfold on_write_fault copy_pages
  simp [h, updateMem]

/-- Witness for C5's amended theorem at address 8192. -/
theorem c5_amended_witness :
    (on_write_fault cf_ok (on_write_fault cf_ok sFault 8192 9) 8192 11).context_queue
      = [⟨8192, 7⟩, ⟨8192, 9⟩] ∧
    (on_write_fault cf_ok (on_write_fault cf_ok sFault 8192 9) 8192 11).mem 8192 = 11 :=
  c5_capture_always_appends cf_ok sFault 8192 9 11 rfl

/-- Counterexample for C6: with vault `[⟨4096,7⟩, ⟨8192,8⟩]` and the
write-back failing on 4096 (the first entry), `restore_context` removes
the failing entry from the vault (queue is now `[⟨8192,8⟩]`) but frees
nothing (freed list empty), so the processed entry is removed yet NOT
freed; the entry point `sys_mmcontext(1)` returns 0, so no error reaches
the caller; and a second `sys_mmcontext(1)` is refused with `-EINVAL`
(contextsave was already cleared), leaving the remaining entry queued —
so the caller cannot in fact retry through the entry point. -/
theorem c6_counterexample :
    (restore_context cfFail4096 sQ).2.1 = [] ∧
    (restore_context cfFail4096 sQ).1.context_queue = [⟨8192, 8⟩] ∧
    (restore_context cfFail4096 sQ).2.2 = -22 ∧
    (sys_mmcontext [] cfFail4096 sQ 1).2 = 0 ∧
    (sys_mmcontext [] cfFail4096 (sys_mmcontext [] cfFail4096 sQ 1).1 1).2 = -22 ∧
    (sys_mmcontext [] cfFail4096 (sys_mmcontext [] cfFail4096 sQ 1).1 1).1.context_queue
      = [⟨8192, 8⟩] := by
  decide

/-- C6 amended: `restore_context` drains the vault in insertion order.
When every write-back succeeds it restores every entry, frees every
entry, empties the vault and returns 0.  When the write-back fails on
entry `en` after a successful prefix `q1`, the entries of `q1` have been
restored and freed in order, `en` has been removed from the vault but not
freed, the not-yet-processed suffix `q2` stays in the vault and
`restore_context` returns `-EINVAL` — but the entry point discards that
return value and reports 0 to the caller, and since the active flag is
cleared before draining, invoking the entry point again on the resulting
state is refused with `-EINVAL` rather than retrying. -/
theorem c6_drain_restore_characterization (mmap : List vm_area_struct)
    (cf : Nat → Bool) (s : TaskState) :
    ((∀ e ∈ s.context_queue, cf e.address = false) →
      restore_context cf s =
        ({ s with
           contextsave := false
           mem := s.context_queue.foldl (fun m e => updateMem m e.address e.new_page) s.mem
           context_queue := [] }, s.context_queue, 0)) ∧
    (∀ q1 en q2, s.context_queue = q1 ++ en :: q2 →
      (∀ x ∈ q1, cf x.address = false) → cf en.address = true →
      restore_context cf s =
        ({ s with
           contextsave := false
           mem := q1.foldl (fun m x => updateMem m x.address x.new_page) s.mem
           context_queue := q2 }, q1, -22)) ∧
    (s.contextsave = true → (sys_mmcontext mmap cf s 1).2 = 0) ∧
    (sys_mmcontext mmap cf (restore_context cf s).1 1
      = ((restore_context cf s).1, -22)) := by
  refine ⟨?_, ?_, ?_, ?_⟩
  · intro h
    unfold restore_context
    rw [restore_context_go_ok cf _ _ _ h]
    simp
  · intro q1 en q2 hq h1 hen
    unfold restore_context
    rw [hq, restore_context_go_fail cf q1 en q2 _ _ h1 hen]
    simp
  · intro h
    simp [sys_mmcontext, h]
  · simp [sys_mmcontext, restore_context]

/-- Witness for C6's amended theorem: the failing drain on `sQ` with the
write-back failing at 4096 (empty successful prefix). -/
theorem c6_witness :
    restore_context cfFail4096 sQ =
      (⟨false, [⟨8192, 8⟩], sQ.pt, sQ.mem⟩, [], -22) :=
  (c6_drain_restore_characterization [] cfFail4096 sQ).2.1 [] ⟨4096, 7⟩ [⟨8192, 8⟩]
    rfl (by simp) rfl
